import Mathlib

/-
  Shallow embedding of the Karyx IoT firmware (dev-iot-util):
    src/firmware/switch.c  — switch/actuator variant
    src/firmware/sensor.c  — sensor variant
  Pure C functions become Lean functions; the mutex-guarded global
  `switch_state` becomes explicit state passing; `time(NULL)` becomes an
  explicit `now` parameter; the curl transport becomes injected boolean
  outcomes.  C `int` is modelled as `Int`; C `unsigned long` counters as
  `Nat` reduced mod 2^64 at each increment.
-/

namespace Karyx

/-- MAX_CHANNELS from switch.c line 24. -/
def MAX_CHANNELS : Int := 4

/-- The modulus 2^64 of C `unsigned long` arithmetic (LP64), written as a
literal. `toggle_count[channel]++` wraps at this bound. -/
def ULONG_MOD : Nat := 18446744073709551616

/-- The Config struct of switch.c (lines 27-35).  Strings are modelled as
Lean strings, C `int` fields as `Int`. -/
structure Config where
  device_id : String
  device_name : String
  panel_url : String
  report_interval : Int
  poll_commands_interval : Int
  num_channels : Int
  verbose : Int
deriving DecidableEq

/-- The SwitchState struct of switch.c (lines 38-42).  The three
fixed-size-4 C arrays are modelled as total maps from the index; the code
only ever accesses indices guarded by `0 <= channel < num_channels <= 4`.
`toggle_count` entries are `unsigned long` values (kept below 2^64 by the
mod at each increment); `last_toggle` holds `time_t` values as `Int`. -/
structure SwitchState where
  channel : Nat → Int
  last_toggle : Nat → Int
  toggle_count : Nat → Nat

/-- The zero-initialised global `switch_state = {0}` of switch.c line 47. -/
def init_switch_state : SwitchState :=
  { channel := fun _ => 0, last_toggle := fun _ => 0, toggle_count := fun _ => 0 }

/-- set_switch (switch.c lines 160-181).  Out-of-range channels return with
no state change; an in-range write that differs from the stored value
updates the channel, stamps `last_toggle` with `now` (the `time(NULL)`
call), and increments the `unsigned long` toggle counter mod 2^64; writing
the stored value back is a no-op.  Logging (`config.verbose`) does not
touch state and is not modelled. -/
def set_switch (cfg : Config) (now : Int) (st : SwitchState) (channel state : Int) :
    SwitchState :=
  if channel < 0 ∨ cfg.num_channels ≤ channel then st
  else if st.channel channel.toNat ≠ state then
    { st with
      channel := Function.update st.channel channel.toNat state,
      last_toggle := Function.update st.last_toggle channel.toNat now,
      toggle_count :=
        Function.update st.toggle_count channel.toNat
          ((st.toggle_count channel.toNat + 1) % ULONG_MOD) }
  else st

/-- get_switch (switch.c lines 184-192): out-of-range channels yield 0,
otherwise the stored channel value is returned; state is never modified
(the mutex lock/unlock around the read has no observable effect here). -/
def get_switch (cfg : Config) (st : SwitchState) (channel : Int) : Int :=
  if channel < 0 ∨ cfg.num_channels ≤ channel then 0
  else st.channel channel.toNat

/-- C logical negation `!current` as used in toggle_switch: 0 becomes 1,
any nonzero value becomes 0. -/
def cNot (x : Int) : Int := if x = 0 then 1 else 0

/-- toggle_switch (switch.c lines 195-198): read the current value, then
set the channel to its C-logical negation. -/
def toggle_switch (cfg : Config) (now : Int) (st : SwitchState) (channel : Int) :
    SwitchState :=
  set_switch cfg now st channel (cNot (get_switch cfg st channel))

/-- execute_command (switch.c lines 201-223): dispatch on the command
string.  `status` only prints and leaves state unchanged; `all_on` /
`all_off` iterate `i = 0 .. num_channels-1` applying set_switch to each
channel in order; an unknown command falls through with no effect. -/
def execute_command (cfg : Config) (now : Int) (st : SwitchState)
    (command : String) (channel : Int) : SwitchState :=
  if command = "on" then set_switch cfg now st channel 1
  else if command = "off" then set_switch cfg now st channel 0
  else if command = "toggle" then toggle_switch cfg now st channel
  else if command = "status" then st
  else if command = "all_on" then
    (List.range cfg.num_channels.toNat).foldl
      (fun s i => set_switch cfg now s (Int.ofNat i) 1) st
  else if command = "all_off" then
    (List.range cfg.num_channels.toNat).foldl
      (fun s i => set_switch cfg now s (Int.ofNat i) 0) st
  else st

/-- A switch Config with num_channels = 4 (the default set by load_config
line 81) and an empty device_id, as in the end-to-end scenario. -/
def cfg4 : Config :=
  { device_id := "", device_name := "", panel_url := "",
    report_interval := 30, poll_commands_interval := 5,
    num_channels := 4, verbose := 0 }

/-- A state whose channel-2 toggle counter has reached the largest
`unsigned long` value 2^64 - 1, with all channels off. -/
def wrap_state : SwitchState :=
  { channel := fun _ => 0, last_toggle := fun _ => 0,
    toggle_count := fun j => if j = 2 then ULONG_MOD - 1 else 0 }

/-- report_status (switch.c lines 226-268): the JSON payload carries the
per-channel values read through get_switch for i = 0 .. num_channels-1 and
a `total_toggles` metric computed as `toggle_count[0] + toggle_count[1]`
(line 246) — an `unsigned long` sum, hence mod 2^64.  The transport part
(curl PUT) is external and not modelled. -/
structure StatusReport where
  channels : List Int
  total_toggles : Nat
deriving DecidableEq

/-- The payload built by report_status before it is serialised and sent. -/
def report_status (cfg : Config) (st : SwitchState) : StatusReport :=
  { channels :=
      (List.range cfg.num_channels.toNat).map (fun i => get_switch cfg st (Int.ofNat i)),
    total_toggles := (st.toggle_count 0 + st.toggle_count 1) % ULONG_MOD }

/-- C `isspace` on the characters atoi skips. -/
def c_isspace (ch : Char) : Bool :=
  ch = ' ' || ch = '\t' || ch = '\n' || ch = '\x0b' || ch = '\x0c' || ch = '\r'

/-- Accumulate decimal digits until the first non-digit, as C atoi does. -/
def atoi_digits : List Char → Int → Int
  | [], acc => acc
  | ch :: rest, acc =>
    if ch.isDigit then atoi_digits rest (acc * 10 + ((ch.toNat : Int) - ('0'.toNat : Int)))
    else acc

/-- C `atoi`: skip leading whitespace, optional sign, then decimal digits
up to the first non-digit (0 when there are none).  Values are modelled as
unbounded `Int`; inputs overflowing C `int` are undefined behaviour in the
source and outside this model's scope. -/
def atoi (s : String) : Int :=
  match s.data.dropWhile c_isspace with
  | '-' :: rest => - atoi_digits rest 0
  | '+' :: rest => atoi_digits rest 0
  | l => atoi_digits l 0

/-- The zero-initialised file-scope `config` global of switch.c line 46. -/
def config_zero : Config :=
  { device_id := "", device_name := "", panel_url := "",
    report_interval := 0, poll_commands_interval := 0,
    num_channels := 0, verbose := 0 }

/-- One recognised `key=value` line of load_config (switch.c lines 95-110):
string fields are strncpy-truncated to their buffer sizes, integer fields
go through atoi, and `num_channels` is additionally clamped down to
MAX_CHANNELS when it exceeds it (lines 103-107).  Unrecognised keys leave
the config unchanged. -/
def load_config_line (c : Config) (key value : String) : Config :=
  if key = "device_id" then { c with device_id := value.take 63 }
  else if key = "device_name" then { c with device_name := value.take 127 }
  else if key = "panel_url" then { c with panel_url := value.take 255 }
  else if key = "report_interval" then { c with report_interval := atoi value }
  else if key = "num_channels" then
    { c with num_channels :=
        if atoi value > MAX_CHANNELS then MAX_CHANNELS else atoi value }
  else if key = "verbose" then { c with verbose := atoi value }
  else c

/-- load_config (switch.c lines 73-115) over the already-split `key=value`
lines of the config file (the fopen/fgets/sscanf plumbing and whitespace
trimming are external): defaults `num_channels = 4` and
`poll_commands_interval = 5` are set first (lines 81-82), then each line
is applied in order. -/
def load_config (lines : List (String × String)) : Config :=
  lines.foldl (fun c kv => load_config_line c kv.1 kv.2)
    { config_zero with num_channels := 4, poll_commands_interval := 5 }

/-- register_device of sensor.c (lines 114-156) and switch.c (lines
126-157): both return -1 when curl_easy_init fails, -1 when the transport
call (curl_easy_perform) fails, and 0 on success.  The two injected
booleans stand for those two external outcomes. -/
def register_device (curl_init_ok transport_ok : Bool) : Int :=
  if curl_init_ok = false then -1
  else if transport_ok = false then -1
  else 0

/-- How a variant's main leaves its startup phase: exit the process with a
code before the Running loops start, or proceed into Running. -/
inductive StartupOutcome where
  | exitFailure (code : Int)
  | running
deriving DecidableEq

/-- What happened during startup: whether the register_device transport
call was made at all, and how startup ended. -/
structure StartupResult where
  registration_attempted : Bool
  outcome : StartupOutcome
deriving DecidableEq

/-- The registration section of sensor.c main (lines 268-275): when
`strlen(config.device_id) == 0`, register_device is called; a nonzero
result makes main `return 1` before the monitoring loop; otherwise (and
when device_id is non-empty, in which case register_device is never
called) main proceeds into the reporting loop. -/
def sensor_main_startup (device_id : String) (curl_init_ok transport_ok : Bool) :
    StartupResult :=
  if device_id.length = 0 then
    if register_device curl_init_ok transport_ok ≠ 0 then
      { registration_attempted := true, outcome := StartupOutcome.exitFailure 1 }
    else
      { registration_attempted := true, outcome := StartupOutcome.running }
  else
    { registration_attempted := false, outcome := StartupOutcome.running }

/-- The registration section of switch.c main (lines 355-358): when
`strlen(config.device_id) == 0`, register_device is called but its result
is discarded; main always continues into the Running loops (listener
thread + CLI loop). -/
def switch_main_startup (device_id : String) (_curl_init_ok _transport_ok : Bool) :
    StartupResult :=
  if device_id.length = 0 then
    { registration_attempted := true, outcome := StartupOutcome.running }
  else
    { registration_attempted := false, outcome := StartupOutcome.running }

/-- What report_metrics (sensor.c lines 159-209) produces besides its HTTP
side effect: the int it returns and whether the WARN "Failed to report
metrics" line was logged.  -1/no-warn when curl_easy_init fails, -1/warn
when the transport call fails, 0/no-warn on success. -/
structure ReportOutcome where
  result : Int
  warn_logged : Bool
deriving DecidableEq

/-- report_metrics outcome as a function of the two injected external
outcomes (curl init, transport).  The float readings it serialises do not
influence control flow and are omitted. -/
def report_metrics (curl_init_ok transport_ok : Bool) : ReportOutcome :=
  if curl_init_ok = false then { result := -1, warn_logged := false }
  else if transport_ok = false then { result := -1, warn_logged := true }
  else { result := 0, warn_logged := false }

/-- Observable record of one iteration of the sensor main loop (sensor.c
lines 284-301): the 1-based cycle counter, the transport outcomes of the
report attempts made during the iteration (the loop body calls
report_metrics exactly once, unconditionally), whether the failure warning
was logged, and how many seconds the end-of-cycle sleep loop waits
(`report_interval` one-second sleeps, i.e. report_interval.toNat). -/
structure CycleEvent where
  cycle : Nat
  attempts : List Bool
  warned : Bool
  wait : Nat
deriving DecidableEq

/-- One iteration of the sensor main loop at cycle k, with per-cycle
transport outcomes injected as `transport : Nat → Bool` (curl init assumed
to succeed). -/
def sensor_cycle (report_interval : Int) (transport : Nat → Bool) (k : Nat) :
    CycleEvent :=
  { cycle := k,
    attempts := [transport k],
    warned := (report_metrics true (transport k)).warn_logged,
    wait := report_interval.toNat }

/-- The sensor main loop run for n full iterations (n is the number of
cycles completed before `running` is cleared by a shutdown signal; nothing
else — in particular no transport failure — ends the loop). -/
def sensor_run (report_interval : Int) (transport : Nat → Bool) (n : Nat) :
    List CycleEvent :=
  (List.range n).map (fun j => sensor_cycle report_interval transport (j + 1))

/-- C1: starting from four channels all 0 with every toggle counter 0,
running `on 2`, `toggle 2`, `off 2`, `all_on` (sequentially, arbitrary
timestamps t1..t4) leaves every channel 1 (true) and toggle_count[2] = 3:
`on 2` flips 0→1 (count 1), `toggle 2` flips 1→0 (count 2), `off 2` writes
the stored 0 and is a no-op, `all_on` flips 0→1 (count 3). -/
theorem end_to_end_scenario (t1 t2 t3 t4 : Int) :
    ((execute_command cfg4 t4
        (execute_command cfg4 t3
          (execute_command cfg4 t2
            (execute_command cfg4 t1 init_switch_state "on" 2)
            "toggle" 2)
          "off" 2)
        "all_on" 0).channel 0 = 1 ∧
     (execute_command cfg4 t4
        (execute_command cfg4 t3
          (execute_command cfg4 t2
            (execute_command cfg4 t1 init_switch_state "on" 2)
            "toggle" 2)
          "off" 2)
        "all_on" 0).channel 1 = 1 ∧
     (execute_command cfg4 t4
        (execute_command cfg4 t3
          (execute_command cfg4 t2
            (execute_command cfg4 t1 init_switch_state "on" 2)
            "toggle" 2)
          "off" 2)
        "all_on" 0).channel 2 = 1 ∧
     (execute_command cfg4 t4
        (execute_command cfg4 t3
          (execute_command cfg4 t2
            (execute_command cfg4 t1 init_switch_state "on" 2)
            "toggle" 2)
          "off" 2)
        "all_on" 0).channel 3 = 1) ∧
    (execute_command cfg4 t4
        (execute_command cfg4 t3
          (execute_command cfg4 t2
            (execute_command cfg4 t1 init_switch_state "on" 2)
            "toggle" 2)
          "off" 2)
        "all_on" 0).toggle_count 2 = 3 :=
  ⟨⟨rfl, rfl, rfl, rfl⟩, rfl⟩

/-- C2 (counterexample): no OutOfRange is reported to the caller.  With
num_channels = 4, reading channel 99 (out of range) returns the plain
value 0 — exactly what reading the valid, switched-off channel 0 returns —
so the caller receives an ordinary channel value, not a distinguished
OutOfRange result; set_switch likewise returns nothing (C `void`). -/
theorem out_of_range_report_counterexample :
    get_switch cfg4 init_switch_state 99 = 0 ∧
    get_switch cfg4 init_switch_state 0 = 0 ∧
    get_switch cfg4 init_switch_state 99 = get_switch cfg4 init_switch_state 0 := by
  decide

/-- C2 (amended): for every index outside [0, num_channels), set_switch
returns with the whole state — every channel value, last_toggle and
toggle_count — unchanged, and get_switch returns 0 without touching state;
both are total (never crash, never terminate the process). -/
theorem out_of_range_silent_noop (cfg : Config) (now : Int) (st : SwitchState)
    (i v : Int) (h : i < 0 ∨ cfg.num_channels ≤ i) :
    set_switch cfg now st i v = st ∧ get_switch cfg st i = 0 := by
  refine ⟨?_, ?_⟩
  · simp [set_switch, h]
  · simp [get_switch, h]

/-- Witness for out_of_range_silent_noop at index 99 on the 4-channel
config. -/
theorem out_of_range_silent_noop_witness :
    ((99 : Int) < 0 ∨ cfg4.num_channels ≤ 99) ∧
    (set_switch cfg4 7 init_switch_state 99 1 = init_switch_state ∧
     get_switch cfg4 init_switch_state 99 = 0) :=
  ⟨by decide, out_of_range_silent_noop cfg4 7 init_switch_state 99 1 (by decide)⟩

/-- C4: writing the value already stored (apply(i, currentValue[i]) for a
valid index i) returns the state unchanged — no channel value,
last_toggle or toggle_count of any channel moves. -/
theorem noop_write_preserves_state (cfg : Config) (now : Int) (st : SwitchState)
    (i : Int) (h0 : 0 ≤ i) (h1 : i < cfg.num_channels) :
    set_switch cfg now st i (st.channel i.toNat) = st := by
  have hg : ¬ (i < 0 ∨ cfg.num_channels ≤ i) := by omega
  simp [set_switch, hg]

/-- Witness for noop_write_preserves_state on channel 1 of the initial
4-channel state. -/
theorem noop_write_preserves_state_witness :
    ((0 : Int) ≤ 1 ∧ (1 : Int) < cfg4.num_channels) ∧
    set_switch cfg4 5 init_switch_state 1 (init_switch_state.channel (1 : Int).toNat)
      = init_switch_state :=
  ⟨by decide, noop_write_preserves_state cfg4 5 init_switch_state 1 (by decide) (by decide)⟩

/-- C5: for a valid index i, set_switch(i, v) followed immediately by
get_switch(i) returns v, whether or not the write changed the stored
value. -/
theorem apply_then_read (cfg : Config) (now : Int) (st : SwitchState)
    (i v : Int) (h0 : 0 ≤ i) (h1 : i < cfg.num_channels) :
    get_switch cfg (set_switch cfg now st i v) i = v := by
  have hg : ¬ (i < 0 ∨ cfg.num_channels ≤ i) := by omega
  by_cases hc : st.channel i.toNat = v
  · simp [set_switch, get_switch, hg, hc]
  · simp [set_switch, get_switch, hg, hc]

/-- Witness for apply_then_read: writing 1 to channel 3 then reading
channel 3 yields 1. -/
theorem apply_then_read_witness :
    ((0 : Int) ≤ 3 ∧ (3 : Int) < cfg4.num_channels) ∧
    get_switch cfg4 (set_switch cfg4 11 init_switch_state 3 1) 3 = 1 :=
  ⟨by decide, apply_then_read cfg4 11 init_switch_state 3 1 (by decide) (by decide)⟩

/-- A single set_switch leaves a toggle counter unchanged or bumps it once
(mod 2^64). -/
theorem set_switch_tc (cfg : Config) (now : Int) (st : SwitchState)
    (channel v : Int) (j : Nat) :
    (set_switch cfg now st channel v).toggle_count j = st.toggle_count j ∨
    (set_switch cfg now st channel v).toggle_count j
      = (st.toggle_count j + 1) % ULONG_MOD := by
  unfold set_switch
  split
  · exact Or.inl rfl
  · split
    · by_cases hj : j = channel.toNat
      · subst hj
        right
        simp
      · left
        simp [Function.update_noteq hj]
    · exact Or.inl rfl

/-- set_switch never touches the toggle counter of a different index. -/
theorem set_switch_tc_ne (cfg : Config) (now : Int) (st : SwitchState)
    (channel v : Int) (j : Nat) (hj : j ≠ channel.toNat) :
    (set_switch cfg now st channel v).toggle_count j = st.toggle_count j := by
  unfold set_switch
  split
  · rfl
  · split
    · simp [Function.update_noteq hj]
    · rfl

/-- Folding set_switch over a list of channel indices not containing j
leaves toggle counter j unchanged. -/
theorem foldl_set_tc_notmem (cfg : Config) (now v : Int) (L : List Nat) (j : Nat) :
    ∀ st : SwitchState, j ∉ L →
      ((L.foldl (fun s k => set_switch cfg now s (Int.ofNat k) v) st).toggle_count j
        = st.toggle_count j) := by
  induction L with
  | nil => intro st _; rfl
  | cons m L ih =>
    intro st hj
    have h1 : j ≠ m ∧ j ∉ L := by simpa [List.mem_cons, not_or] using hj
    rw [List.foldl_cons, ih _ h1.2, set_switch_tc_ne]
    simpa using h1.1

/-- Folding set_switch over duplicate-free channel indices bumps each
toggle counter at most once (mod 2^64). -/
theorem foldl_set_tc (cfg : Config) (now v : Int) (L : List Nat) (j : Nat) :
    ∀ st : SwitchState, L.Nodup →
      ((L.foldl (fun s k => set_switch cfg now s (Int.ofNat k) v) st).toggle_count j
          = st.toggle_count j ∨
       (L.foldl (fun s k => set_switch cfg now s (Int.ofNat k) v) st).toggle_count j
          = (st.toggle_count j + 1) % ULONG_MOD) := by
  induction L with
  | nil => intro st _; exact Or.inl rfl
  | cons m L ih =>
    intro st hL
    obtain ⟨hm, hnd⟩ := List.nodup_cons.mp hL
    rw [List.foldl_cons]
    by_cases hjm : j = m
    · subst hjm
      rw [foldl_set_tc_notmem cfg now v L j _ hm]
      exact set_switch_tc cfg now st (Int.ofNat j) v j
    · have hne : (set_switch cfg now st (Int.ofNat m) v).toggle_count j
          = st.toggle_count j :=
        set_switch_tc_ne cfg now st (Int.ofNat m) v j (by simpa using hjm)
      rcases ih (set_switch cfg now st (Int.ofNat m) v) hnd with h | h
      · exact Or.inl (by rw [h, hne])
      · exact Or.inr (by rw [h, hne])

/-- Every command dispatched by execute_command leaves each toggle counter
unchanged or bumps it once (mod 2^64). -/
theorem execute_command_tc (cfg : Config) (now : Int) (st : SwitchState)
    (command : String) (channel : Int) (j : Nat) :
    (execute_command cfg now st command channel).toggle_count j = st.toggle_count j ∨
    (execute_command cfg now st command channel).toggle_count j
      = (st.toggle_count j + 1) % ULONG_MOD := by
  unfold execute_command
  split
  · exact set_switch_tc cfg now st channel 1 j
  · split
    · exact set_switch_tc cfg now st channel 0 j
    · split
      · exact set_switch_tc cfg now st channel _ j
      · split
        · exact Or.inl rfl
        · split
          · exact foldl_set_tc cfg now 1 (List.range cfg.num_channels.toNat) j st
              (List.nodup_range _)
          · split
            · exact foldl_set_tc cfg now 0 (List.range cfg.num_channels.toNat) j st
                (List.nodup_range _)
            · exact Or.inl rfl

/-- C3 (counterexample): toggle_count is not monotone on the code as it
stands — the counter is a 64-bit `unsigned long`, and an apply that
changes a channel whose counter has reached 2^64 - 1 wraps it to 0, a
strict decrease. -/
theorem toggle_count_wraparound_counterexample :
    (set_switch cfg4 0 wrap_state 2 1).toggle_count 2 < wrap_state.toggle_count 2 := by
  decide

/-- C3 (amended): for a valid channel index i whose 64-bit counter has not
saturated (toggle_count[i] + 1 < 2^64), toggle_count[i] is non-decreasing
under every execute_command and every direct set_switch, and an apply that
changes the stored value — set_switch(i, !currentValue) — increments it by
exactly 1. -/
theorem toggle_count_monotone_amended (cfg : Config) (now : Int) (st : SwitchState)
    (command : String) (channel v i : Int)
    (h0 : 0 ≤ i) (h1 : i < cfg.num_channels)
    (hcnt : st.toggle_count i.toNat + 1 < ULONG_MOD) :
    st.toggle_count i.toNat
        ≤ (execute_command cfg now st command channel).toggle_count i.toNat ∧
    st.toggle_count i.toNat
        ≤ (set_switch cfg now st channel v).toggle_count i.toNat ∧
    (set_switch cfg now st i (cNot (st.channel i.toNat))).toggle_count i.toNat
        = st.toggle_count i.toNat + 1 := by
  have hmod : (st.toggle_count i.toNat + 1) % ULONG_MOD = st.toggle_count i.toNat + 1 :=
    Nat.mod_eq_of_lt hcnt
  refine ⟨?_, ?_, ?_⟩
  · rcases execute_command_tc cfg now st command channel i.toNat with h | h
    · exact le_of_eq h.symm
    · rw [h, hmod]; exact Nat.le_succ _
  · rcases set_switch_tc cfg now st channel v i.toNat with h | h
    · exact le_of_eq h.symm
    · rw [h, hmod]; exact Nat.le_succ _
  · have hne : st.channel i.toNat ≠ cNot (st.channel i.toNat) := by
      unfold cNot
      by_cases hx : st.channel i.toNat = 0
      · simp [hx]
      · simp [hx]
    have hg : ¬ (i < 0 ∨ cfg.num_channels ≤ i) := by omega
    unfold set_switch
    rw [if_neg hg, if_pos hne]
    simp [hmod]

/-- Witness for toggle_count_monotone_amended: 4-channel config, initial
state, command "on 0", watching the valid channel 2 whose counter is 0. -/
theorem toggle_count_monotone_amended_witness :
    ((0 : Int) ≤ 2 ∧ (2 : Int) < cfg4.num_channels ∧
      init_switch_state.toggle_count (2 : Int).toNat + 1 < ULONG_MOD) ∧
    (init_switch_state.toggle_count (2 : Int).toNat
        ≤ (execute_command cfg4 0 init_switch_state "on" 0).toggle_count (2 : Int).toNat ∧
     init_switch_state.toggle_count (2 : Int).toNat
        ≤ (set_switch cfg4 0 init_switch_state 0 1).toggle_count (2 : Int).toNat ∧
     (set_switch cfg4 0 init_switch_state 2
        (cNot (init_switch_state.channel (2 : Int).toNat))).toggle_count (2 : Int).toNat
        = init_switch_state.toggle_count (2 : Int).toNat + 1) :=
  ⟨⟨by decide, by decide, by decide⟩,
   toggle_count_monotone_amended cfg4 0 init_switch_state "on" 0 1 2
     (by decide) (by decide) (by decide)⟩

/-- A string has length 0 exactly when it is the empty string. -/
theorem string_length_zero_iff (s : String) : s.length = 0 ↔ s = "" := by
  cases s with
  | mk data =>
    constructor
    · intro h
      have hd : data = [] := List.length_eq_zero.mp h
      simp [hd]
    · intro h
      have hd : data = [] := by
        have := congrArg String.data h
        simpa using this
      simp [String.length, hd]

/-- C6: with an empty device_id and a failing registration transport call,
the sensor variant's main returns 1 (non-zero) before its reporting loop
ever runs, while the switch variant's main reaches the Running loops for
every device_id and every registration outcome. -/
theorem registration_failure_asymmetry :
    sensor_main_startup "" true false
      = { registration_attempted := true, outcome := StartupOutcome.exitFailure 1 } ∧
    (1 : Int) ≠ 0 ∧
    (∀ (d : String) (c t : Bool),
      (switch_main_startup d c t).outcome = StartupOutcome.running) := by
  refine ⟨by decide, by decide, ?_⟩
  intro d c t
  unfold switch_main_startup
  split <;> rfl

/-- C7: in both variants the register_device transport call is made at
startup exactly when the configured device_id is the empty string; a
pre-set non-empty device_id skips registration entirely. -/
theorem registration_guard (d : String) (c t : Bool) :
    ((sensor_main_startup d c t).registration_attempted = true ↔ d = "") ∧
    ((switch_main_startup d c t).registration_attempted = true ↔ d = "") := by
  have hlen : d.length = 0 ↔ d = "" := string_length_zero_iff d
  constructor
  · unfold sensor_main_startup
    by_cases hd : d.length = 0
    · rw [if_pos hd]
      split <;> simp [hlen.mp hd]
    · rw [if_neg hd]
      simp
      intro h
      exact hd (by simp [h])
  · unfold switch_main_startup
    by_cases hd : d.length = 0
    · rw [if_pos hd]
      simp [hlen.mp hd]
    · rw [if_neg hd]
      simp
      intro h
      exact hd (by simp [h])

/-- C8: in an n-cycle sensor run where the transport fails on cycle k
(1 ≤ k, k + 1 ≤ n): the loop still completes all n cycles (no failure
ever ends it); cycle k makes exactly one transmission attempt (no retry),
logs the WARN line, and then waits the usual report_interval seconds; and
cycle k + 1 again makes exactly one attempt after that same wait, its
outcome depending only on the transport at cycle k + 1 — the failed
snapshot is dropped, not buffered. -/
theorem reporter_cycle_independence (ri : Int) (transport : Nat → Bool) (n k : Nat)
    (hfail : transport k = false) (hk : 1 ≤ k) (hkn : k + 1 ≤ n) :
    (sensor_run ri transport n).length = n ∧
    (sensor_run ri transport n)[k - 1]?
      = some { cycle := k, attempts := [false], warned := true, wait := ri.toNat } ∧
    (sensor_run ri transport n)[k]?
      = some { cycle := k + 1, attempts := [transport (k + 1)],
               warned := !(transport (k + 1)), wait := ri.toNat } := by
  have h1 : k - 1 < n := by omega
  have h2 : k < n := by omega
  have hsub : k - 1 + 1 = k := Nat.sub_add_cancel hk
  refine ⟨by simp [sensor_run], ?_, ?_⟩
  · unfold sensor_run
    rw [List.getElem?_map, List.getElem?_range h1]
    simp [hsub, sensor_cycle, report_metrics, hfail]
  · unfold sensor_run
    rw [List.getElem?_map, List.getElem?_range h2]
    cases htb : transport (k + 1) <;>
      simp [sensor_cycle, report_metrics, htb]

/-- Witness for reporter_cycle_independence: 3 cycles, interval 7, the
transport failing exactly on cycle 2. -/
theorem reporter_cycle_independence_witness :
    ((fun j => if j = 2 then false else true) 2 = false ∧ 1 ≤ 2 ∧ 2 + 1 ≤ 3) ∧
    ((sensor_run 7 (fun j => if j = 2 then false else true) 3).length = 3 ∧
     (sensor_run 7 (fun j => if j = 2 then false else true) 3)[2 - 1]?
       = some { cycle := 2, attempts := [false], warned := true, wait := (7 : Int).toNat } ∧
     (sensor_run 7 (fun j => if j = 2 then false else true) 3)[2]?
       = some { cycle := 2 + 1,
                attempts := [(fun j => if j = 2 then false else true) (2 + 1)],
                warned := !((fun j => if j = 2 then false else true) (2 + 1)),
                wait := (7 : Int).toNat }) :=
  ⟨⟨by decide, by decide, by decide⟩,
   reporter_cycle_independence 7 (fun j => if j = 2 then false else true) 3 2
     (by decide) (by decide) (by decide)⟩

/-- C9 (counterexample): a config file line `num_channels=0` leaves
config.num_channels = 0 after load_config — outside the claimed range
[1, 4]; the code clamps only from above. -/
theorem num_channels_lower_clamp_counterexample :
    (load_config [("num_channels", "0")]).num_channels = 0 ∧
    ¬ (1 ≤ (load_config [("num_channels", "0")]).num_channels) := by
  constructor
  · rfl
  · decide

/-- C9 (amended): after load_config, num_channels ≤ MAX_CHANNELS = 4
always holds (values above 4 are clamped down, the default is 4), but
there is no lower clamp: a `num_channels` line stores `atoi` of its value
unchanged whenever that value is not above 4 — including 0 and negative
values. -/
theorem num_channels_clamp_amended (lines : List (String × String))
    (c : Config) (v : String) :
    (load_config lines).num_channels ≤ MAX_CHANNELS ∧
    (load_config_line c "num_channels" v).num_channels
      = (if atoi v > MAX_CHANNELS then MAX_CHANNELS else atoi v) := by
  have hline : ∀ (c : Config) (k w : String),
      c.num_channels ≤ MAX_CHANNELS →
      (load_config_line c k w).num_channels ≤ MAX_CHANNELS := by
    intro c k w hc
    unfold load_config_line
    split
    · exact hc
    · split
      · exact hc
      · split
        · exact hc
        · split
          · exact hc
          · split
            · show (if atoi w > MAX_CHANNELS then MAX_CHANNELS else atoi w) ≤ MAX_CHANNELS
              split
              · exact le_refl _
              · omega
            · split
              · exact hc
              · exact hc
  have hfold : ∀ (L : List (String × String)) (c : Config),
      c.num_channels ≤ MAX_CHANNELS →
      (L.foldl (fun c kv => load_config_line c kv.1 kv.2) c).num_channels
        ≤ MAX_CHANNELS := by
    intro L
    induction L with
    | nil => intro c hc; exact hc
    | cons kv L ih => intro c hc; exact ih _ (hline c kv.1 kv.2 hc)
  refine ⟨hfold lines _ (by decide), rfl⟩

/-- C10: the total_toggles metric of every report_status payload is
toggle_count[0] + toggle_count[1] (as unsigned long arithmetic, mod 2^64)
for every configuration and state, and two states agreeing on channels 0
and 1 — whatever their channel-2 and channel-3 counters — produce the same
total_toggles. -/
theorem total_toggles_first_two_channels (cfg : Config) (st st' : SwitchState)
    (h0 : st'.toggle_count 0 = st.toggle_count 0)
    (h1 : st'.toggle_count 1 = st.toggle_count 1) :
    (report_status cfg st).total_toggles
      = (st.toggle_count 0 + st.toggle_count 1) % ULONG_MOD ∧
    (report_status cfg st').total_toggles = (report_status cfg st).total_toggles := by
  refine ⟨rfl, ?_⟩
  simp [report_status, h0, h1]

/-- Witness for total_toggles_first_two_channels: the initial state and
the wrap_state agree on channels 0 and 1 (both zero) while differing
hugely on channel 2, and report the same total. -/
theorem total_toggles_first_two_channels_witness :
    (wrap_state.toggle_count 0 = init_switch_state.toggle_count 0 ∧
     wrap_state.toggle_count 1 = init_switch_state.toggle_count 1) ∧
    ((report_status cfg4 init_switch_state).total_toggles
       = (init_switch_state.toggle_count 0 + init_switch_state.toggle_count 1)
           % ULONG_MOD ∧
     (report_status cfg4 wrap_state).total_toggles
       = (report_status cfg4 init_switch_state).total_toggles) :=
  ⟨⟨by decide, by decide⟩,
   total_toggles_first_two_channels cfg4 init_switch_state wrap_state
     (by decide) (by decide)⟩

end Karyx
